import Mathlib

/-
  Verification development for the CloudSim scheduling core
  (src/Scheduler.cpp, src/Scheduler.hpp).

  The scheduler's event handlers are embedded shallowly as pure state
  transformers on `SysState`.  `SysState` carries both the substrate-side
  data the handlers read through `Machine_GetInfo` / `VM_GetInfo`
  (`machineInfo`, `vmInfo`) and the scheduler's own bookkeeping
  (`machines`, `vms`, `activeMachines`, `migratingVMs`,
  `machineUtilization`, plus the file-level `migrating` flag of
  Scheduler.cpp).  Every handler returns the successor state together with
  the list of state-mutating substrate calls it issued, in emission order
  (`SCall`): asynchronous calls (`Machine_SetState`, `VM_Migrate`) are
  additionally recorded in `pendingState` / `pendingMigs` at request time,
  since their effects only land at a later completion callback.

  Machine ids index `machineInfo`; VM ids index `vmInfo`; `VM_Create`
  allocates the next index.  C++ doubles (machine utilization) are
  modelled as exact rationals.  `std::set` iteration order is modelled by
  keeping the corresponding lists sorted ascending (`setInsert`).
-/

namespace EEC

inductive CPUType
  | ARM | POWER | RISCV | X86
deriving DecidableEq, Repr

inductive MachineSState
  | S0 | S1 | S2 | S3 | S4 | S5
deriving DecidableEq, Repr

inductive CorePerf
  | P0 | P1 | P2 | P3
deriving DecidableEq, Repr

inductive SLAType
  | SLA0 | SLA1 | SLA2 | SLA3
deriving DecidableEq, Repr

inductive Priority
  | HIGH_PRIORITY | MID_PRIORITY | LOW_PRIORITY
deriving DecidableEq, Repr

inductive VMType
  | LINUX | LINUX_RT | WIN | AIX
deriving DecidableEq, Repr

/-- Task requirements, as returned by the substrate task accessors
(`RequiredCPUType`, `RequiredVMType`, `RequiredSLA`, `GetTaskMemory`,
`IsTaskGpuCapable`, `GetRemainingInstructions`, target completion). -/
structure TaskInfo where
  required_cpu : CPUType
  required_vm : VMType
  required_memory : Nat
  gpu_capable : Bool
  required_sla : SLAType
  remaining_instructions : Nat
  target_completion : Nat
deriving DecidableEq, Repr

/-- The fields of `MachineInfo_t` the scheduler reads. -/
structure MachineInfo where
  cpu : CPUType
  num_cpus : Nat
  memory_size : Nat
  memory_used : Nat
  gpus : Bool
  s_state : MachineSState
  active_tasks : Nat
  active_vms : Nat
deriving DecidableEq, Repr

instance : Inhabited MachineInfo :=
  ⟨{ cpu := CPUType.X86, num_cpus := 0, memory_size := 0, memory_used := 0,
     gpus := false, s_state := MachineSState.S5, active_tasks := 0, active_vms := 0 }⟩

/-- The fields of `VMInfo_t` the scheduler reads.  `machine_id = none`
models a VM created but not yet attached. -/
structure VMInfo where
  vm_type : VMType
  cpu : CPUType
  machine_id : Option Nat
  active_tasks : List Nat
deriving DecidableEq, Repr

instance : Inhabited VMInfo :=
  ⟨{ vm_type := VMType.LINUX, cpu := CPUType.X86, machine_id := none, active_tasks := [] }⟩

/-- One state-mutating substrate call, recorded in emission order. -/
inductive SCall
  | setState (machine : Nat) (st : MachineSState)
  | setCorePerf (machine core : Nat) (p : CorePerf)
  | vmCreate (vt : VMType) (cpu : CPUType) (newId : Nat)
  | vmAttach (vm machine : Nat)
  | addTask (vm task : Nat) (p : Priority)
  | removeTask (vm task : Nat)
  | migrate (vm target : Nat)
deriving DecidableEq, Repr

/-- Combined substrate + scheduler state (see header comment). -/
structure SysState where
  machineInfo : List MachineInfo
  vmInfo : List VMInfo
  pendingState : List (Nat × MachineSState)
  pendingMigs : List (Nat × Nat)
  machines : List Nat
  vms : List Nat
  activeMachines : List Nat
  migratingVMs : List Nat
  machineUtilization : List (Nat × ℚ)
  migrating : Bool
deriving DecidableEq

/-- Read of `Machine_GetInfo`. -/
def mGet (s : SysState) (m : Nat) : MachineInfo := s.machineInfo.getD m default

/-- Read of `VM_GetInfo`. -/
def vGet (s : SysState) (v : Nat) : VMInfo := s.vmInfo.getD v default

/-- Update the i-th element of a list in place. -/
def updNth {α : Type} : List α → Nat → (α → α) → List α
  | [], _, _ => []
  | a :: l, 0, f => f a :: l
  | a :: l, n + 1, f => a :: updNth l n f

/-- Ordered duplicate-free insertion, modelling `std::set::insert`
(iteration over the resulting list matches std::set ascending order). -/
def setInsert : List Nat → Nat → List Nat
  | [], x => [x]
  | a :: l, x =>
    if x < a then x :: a :: l
    else if x = a then a :: l
    else a :: setInsert l x

/-- Association-list lookup for the utilization map. -/
def alookup : List (Nat × ℚ) → Nat → Option ℚ
  | [], _ => none
  | (k, v) :: l, k' => if k = k' then some v else alookup l k'

/-- Association-list write, modelling `std::map::operator[] =`. -/
def upsert : List (Nat × ℚ) → Nat → ℚ → List (Nat × ℚ)
  | [], k, v => [(k, v)]
  | (k', v') :: l, k, v => if k' = k then (k, v) :: l else (k', v') :: upsert l k v

/-- Read of `machineUtilization[m]` (`std::map::operator[]` defaults to 0). -/
def utilGet (s : SysState) (m : Nat) : ℚ := (alookup s.machineUtilization m).getD 0

/-- Number of active tasks of a VM, `VM_GetInfo(vm).active_tasks.size()`. -/
def taskCount (s : SysState) (v : Nat) : Nat := (vGet s v).active_tasks.length

/-- Priority assignment of Scheduler::NewTask (Scheduler.cpp:779-795):
purely by SLA class. -/
def priorityOf : SLAType → Priority
  | SLAType.SLA0 => Priority.HIGH_PRIORITY
  | SLAType.SLA1 => Priority.HIGH_PRIORITY
  | SLAType.SLA2 => Priority.MID_PRIORITY
  | SLAType.SLA3 => Priority.LOW_PRIORITY

/-- The SLA0 arm of the VM-selection loop of Scheduler::NewTask
(Scheduler.cpp:810-842): keep the non-migrating CPU-matching VM with the
fewest active tasks (first wins ties; the C++ accumulator starts at
`UINT_MAX` with no VM selected, modelled by the `none` accumulator). -/
def selBest (s : SysState) (cpu : CPUType) : List Nat → Option (Nat × Nat) → Option Nat
  | [], acc => acc.map Prod.fst
  | v :: rest, acc =>
    if v ∈ s.migratingVMs then selBest s cpu rest acc
    else if (vGet s v).cpu = cpu then
      match acc with
      | none => selBest s cpu rest (some (v, taskCount s v))
      | some (b, c) =>
        if taskCount s v < c then selBest s cpu rest (some (v, taskCount s v))
        else selBest s cpu rest (some (b, c))
    else selBest s cpu rest acc

/-- The non-SLA0 arm of the VM-selection loop of Scheduler::NewTask
(Scheduler.cpp:810-842): first non-migrating VM with matching CPU. -/
def selFirst (s : SysState) (cpu : CPUType) : List Nat → Option Nat
  | [] => none
  | v :: rest =>
    if v ∈ s.migratingVMs then selFirst s cpu rest
    else if (vGet s v).cpu = cpu then some v
    else selFirst s cpu rest

/-- VM selection of Scheduler::NewTask over the scheduler's VM list. -/
def selectVM (s : SysState) (cpu : CPUType) (sla : SLAType) : Option Nat :=
  match sla with
  | SLAType.SLA0 => selBest s cpu s.vms none
  | _ => selFirst s cpu s.vms

/-- Active-machine scan of Scheduler::NewTask (Scheduler.cpp:855-866):
first active machine whose CPU matches (std::set order = ascending). -/
def findFirstCpu (s : SysState) (cpu : CPUType) : List Nat → Option Nat
  | [] => none
  | m :: rest => if (mGet s m).cpu = cpu then some m else findFirstCpu s cpu rest

/-- Inactive-machine scan of Scheduler::NewTask (Scheduler.cpp:869-894):
first machine not in the active set whose CPU matches. -/
def findInactiveCpu (s : SysState) (cpu : CPUType) : List Nat → Option Nat
  | [] => none
  | m :: rest =>
    if m ∈ s.activeMachines then findInactiveCpu s cpu rest
    else if (mGet s m).cpu = cpu then some m
    else findInactiveCpu s cpu rest

/-- Effect of `VM_Attach(v, m)`. -/
def attachVM (s : SysState) (v m : Nat) : SysState :=
  { s with
    vmInfo := updNth s.vmInfo v (fun vi => { vi with machine_id := some m }),
    machineInfo := updNth s.machineInfo m (fun mi => { mi with active_vms := mi.active_vms + 1 }) }

/-- Effect of `VM_AddTask(v, tid, p)`: the task joins the VM's task list
and the hosting machine's task count grows. -/
def addTaskEff (s : SysState) (v tid : Nat) (p : Priority) : SysState × List SCall :=
  let s1 := { s with
    vmInfo := updNth s.vmInfo v (fun vi => { vi with active_tasks := vi.active_tasks ++ [tid] }) }
  let s2 :=
    match (vGet s v).machine_id with
    | some m =>
      { s1 with machineInfo :=
          updNth s1.machineInfo m (fun mi => { mi with active_tasks := mi.active_tasks + 1 }) }
    | none => s1
  (s2, [SCall.addTask v tid p])

/-- VM_Create + VM_Attach + vms.push_back + VM_AddTask sequence of
Scheduler::NewTask (Scheduler.cpp:897-935) on a chosen machine. -/
def placeNewVM (s : SysState) (ti : TaskInfo) (tid m : Nat) (pre : List SCall) :
    SysState × List SCall :=
  let nid := s.vmInfo.length
  let s1 := { s with vmInfo := s.vmInfo ++
    [{ vm_type := ti.required_vm, cpu := ti.required_cpu, machine_id := none, active_tasks := [] }] }
  let s2 := attachVM s1 nid m
  let s3 := { s2 with vms := s2.vms ++ [nid] }
  let r := addTaskEff s3 nid tid (priorityOf ti.required_sla)
  (r.fst, pre ++ [SCall.vmCreate ti.required_vm ti.required_cpu nid, SCall.vmAttach nid m] ++ r.snd)

/-- Scheduler::NewTask (Scheduler.cpp:767-942).  `env` is the substrate's
task-information oracle. -/
def newTask (env : Nat → TaskInfo) (now tid : Nat) (s : SysState) : SysState × List SCall :=
  match selectVM s (env tid).required_cpu (env tid).required_sla with
  | some v => addTaskEff s v tid (priorityOf (env tid).required_sla)
  | none =>
    match findFirstCpu s (env tid).required_cpu s.activeMachines with
    | some m => placeNewVM s (env tid) tid m []
    | none =>
      match findInactiveCpu s (env tid).required_cpu s.machines with
      | some m =>
        placeNewVM
          { s with
            activeMachines := setInsert s.activeMachines m,
            machineUtilization := upsert s.machineUtilization m 0,
            pendingState := s.pendingState ++ [(m, MachineSState.S0)] }
          (env tid) tid m [SCall.setState m MachineSState.S0]
      | none => (s, [])

/-- Utilization of one machine as both Scheduler::PeriodicCheck
(Scheduler.cpp:967-987) and Scheduler::TaskComplete (Scheduler.cpp:1124-1136)
compute it: `active_tasks / num_cpus`, and 0 when the machine has no CPUs. -/
def utilOf (s : SysState) (m : Nat) : ℚ :=
  if 0 < (mGet s m).num_cpus then
    ((mGet s m).active_tasks : ℚ) / ((mGet s m).num_cpus : ℚ)
  else 0

/-- The utilization-refresh loop shared by PeriodicCheck and TaskComplete. -/
def updateUtil (s : SysState) : SysState :=
  { s with machineUtilization :=
      s.machines.foldl (fun u m => upsert u m (utilOf s m)) s.machineUtilization }

/-- The DVFS loop of Scheduler::PeriodicCheck (Scheduler.cpp:989-1012):
every core of a machine with at least one active task goes to P0,
otherwise to P3. -/
def dvfsCalls (s : SysState) : List SCall :=
  s.machines.flatMap fun m =>
    (List.range (mGet s m).num_cpus).map fun i =>
      SCall.setCorePerf m i
        (if 0 < (mGet s m).active_tasks then CorePerf.P0 else CorePerf.P3)

/-- The first VM found on the given machine (Scheduler.cpp:1051-1060);
the loop does not skip migrating VMs. -/
def findVMOn (s : SysState) (mid : Nat) : List Nat → Option Nat
  | [] => none
  | v :: rest => if (vGet s v).machine_id = some mid then some v else findVMOn s mid rest

/-- Consolidation target scan (Scheduler.cpp:1068-1087): among active
machines other than the source, with matching CPU, pick the one of highest
utilization strictly below `OVERLOAD_THRESHOLD = 0.8` (and above the best
seen so far, starting from 0). -/
def bestTargetGo (s : SysState) (src : Nat) (cpu : CPUType) :
    List Nat → Option Nat → ℚ → Option Nat
  | [], acc, _ => acc
  | m :: rest, acc, best =>
    if m = src then bestTargetGo s src cpu rest acc best
    else if (mGet s m).cpu = cpu ∧ best < utilGet s m ∧ utilGet s m < 8 / 10 then
      bestTargetGo s src cpu rest (some m) (utilGet s m)
    else bestTargetGo s src cpu rest acc best

/-- The pure decision part of the consolidation step of
Scheduler::PeriodicCheck (Scheduler.cpp:1014-1110): which VM migrates
where, if any.  Runs only when the file-level `migrating` flag is clear
and `now > 1000000`; the source is the first active machine (ascending)
with utilization below `UNDERLOAD_THRESHOLD = 0.3`. -/
def consolidateChoice (now : Nat) (s : SysState) : Option (Nat × Nat) :=
  if s.migrating = false ∧ 1000000 < now then
    match s.activeMachines.filter (fun m => decide (utilGet s m < 3 / 10)) with
    | [] => none
    | src :: _ =>
      if 0 < (mGet s src).active_vms then
        match findVMOn s src s.vms with
        | none => none
        | some v =>
          match bestTargetGo s src (vGet s v).cpu s.activeMachines none 0 with
          | none => none
          | some t => some (v, t)
      else none
  else none

/-- The consolidation step's effect: mark the VM migrating, set the
file-level `migrating` flag, issue `VM_Migrate`. -/
def consolidate (now : Nat) (s : SysState) : SysState × List SCall :=
  match consolidateChoice now s with
  | none => (s, [])
  | some (v, t) =>
    ({ s with migrating := true, migratingVMs := setInsert s.migratingVMs v,
              pendingMigs := s.pendingMigs ++ [(v, t)] },
     [SCall.migrate v t])

/-- Scheduler::PeriodicCheck (Scheduler.cpp:944-1113): refresh the
utilization map, run the two-tier DVFS loop, then the consolidation step. -/
def periodicCheck (now : Nat) (s : SysState) : SysState × List SCall :=
  ((consolidate now (updateUtil s)).fst,
   dvfsCalls (updateUtil s) ++ (consolidate now (updateUtil s)).snd)

/-- Scheduler::TaskComplete (Scheduler.cpp:1115-1139): only the
utilization-refresh loop; no substrate call is issued. -/
def taskComplete (now tid : Nat) (s : SysState) : SysState × List SCall :=
  (updateUtil s, [])

/-- Scheduler::ActivateMachine (Scheduler.hpp:25-28). -/
def activateMachine (s : SysState) (m : Nat) : SysState :=
  { s with activeMachines := setInsert s.activeMachines m,
           machineUtilization := upsert s.machineUtilization m 0 }

/-- Scheduler::DeactivateMachine (Scheduler.hpp:29-31). -/
def deactivateMachine (s : SysState) (m : Nat) : SysState :=
  { s with activeMachines := s.activeMachines.filter (fun x => x != m) }

/-- The VM-existence check and creation of StateChangeComplete
(Scheduler.cpp:373-399): if no VM of the scheduler's list reports this
machine as host, create a LINUX VM of the machine's CPU and attach it. -/
def ensureVM (s : SysState) (m : Nat) (cpu : CPUType) : SysState × List SCall :=
  if s.vms.any (fun vm => (vGet s vm).machine_id == some m) then (s, [])
  else
    let nid := s.vmInfo.length
    let s1 := { s with vmInfo := s.vmInfo ++
      [{ vm_type := VMType.LINUX, cpu := cpu, machine_id := none, active_tasks := [] }] }
    let s2 := attachVM s1 nid m
    ({ s2 with vms := s2.vms ++ [nid] },
     [SCall.vmCreate VMType.LINUX cpu nid, SCall.vmAttach nid m])

/-- StateChangeComplete (Scheduler.cpp:319-426).  The substrate has
already applied the requested power state, so the handler dispatches on
the state `Machine_GetInfo` reports: S0 activates the machine, sets all
cores to P1 and ensures a VM exists; S5 deactivates it; every path ends by
running Scheduler::PeriodicCheck. -/
def stateChangeComplete (t m : Nat) (s : SysState) : SysState × List SCall :=
  match (mGet s m).s_state with
  | MachineSState.S0 =>
    ((periodicCheck t (ensureVM (activateMachine s m) m (mGet s m).cpu).fst).fst,
     ((List.range (mGet s m).num_cpus).map fun i => SCall.setCorePerf m i CorePerf.P1)
       ++ (ensureVM (activateMachine s m) m (mGet s m).cpu).snd
       ++ (periodicCheck t (ensureVM (activateMachine s m) m (mGet s m).cpu).fst).snd)
  | MachineSState.S5 =>
    ((periodicCheck t (deactivateMachine s m)).fst,
     (periodicCheck t (deactivateMachine s m)).snd)
  | _ => ((periodicCheck t s).fst, (periodicCheck t s).snd)

/-- The VM-with-most-tasks scan of MemoryWarning (Scheduler.cpp:103-114):
strictly-more wins, starting from a count of 0, so a VM is selected only
if it has at least one task. -/
def pickLargest (s : SysState) : List Nat → Option Nat → Nat → Option Nat
  | [], best, _ => best
  | v :: rest, best, most =>
    if most < taskCount s v then pickLargest s rest (some v) (taskCount s v)
    else pickLargest s rest best most

/-- MemoryWarning's active-target scan (Scheduler.cpp:130-156): first
machine other than the source that is active, has matching CPU and fewer
than 2 active tasks. -/
def findMWTargetActive (s : SysState) (mid : Nat) (cpu : CPUType) : List Nat → Option Nat
  | [] => none
  | m :: rest =>
    if m = mid then findMWTargetActive s mid cpu rest
    else if m ∈ s.activeMachines then
      if (mGet s m).cpu = cpu then
        if (mGet s m).active_tasks < 2 then some m
        else findMWTargetActive s mid cpu rest
      else findMWTargetActive s mid cpu rest
    else findMWTargetActive s mid cpu rest

/-- MemoryWarning's power-on scan (Scheduler.cpp:159-183): first inactive
machine with matching CPU. -/
def findMWInactive (s : SysState) (cpu : CPUType) : List Nat → Option Nat
  | [] => none
  | m :: rest =>
    if m ∈ s.activeMachines then findMWInactive s cpu rest
    else if (mGet s m).cpu = cpu then some m
    else findMWInactive s cpu rest

/-- The VMs the scheduler sees on a machine (Scheduler.cpp:87-101). -/
def vmsOnMachine (s : SysState) (mid : Nat) : List Nat :=
  s.vms.filter fun v => (vGet s v).machine_id == some mid

/-- Effect of `VM_RemoveTask(v, back())` as MemoryWarning issues it
(Scheduler.cpp:204-221): the VM loses its last task and the hosting
machine's task count drops. -/
def removeTaskEff (s : SysState) (v : Nat) : SysState :=
  let s1 := { s with
    vmInfo := updNth s.vmInfo v (fun vi => { vi with active_tasks := vi.active_tasks.dropLast }) }
  match (vGet s v).machine_id with
  | some m =>
    { s1 with machineInfo :=
        updNth s1.machineInfo m (fun mi => { mi with active_tasks := mi.active_tasks - 1 }) }
  | none => s1

/-- MemoryWarning (Scheduler.cpp:69-241): migrate the VM with the most
tasks off the machine (to an active lightly-loaded machine, else to a
powered-on one), else remove one task; finally all cores of the machine
go to P0.  The victim scan never consults the migrating-VM set. -/
def memoryWarning (now mid : Nat) (s : SysState) : SysState × List SCall :=
  let perf := (List.range (mGet s mid).num_cpus).map fun i => SCall.setCorePerf mid i CorePerf.P0
  match pickLargest s (vmsOnMachine s mid) none 0 with
  | none => (s, perf)
  | some lv =>
    match findMWTargetActive s mid (vGet s lv).cpu s.machines with
    | some t =>
      ({ s with migratingVMs := setInsert s.migratingVMs lv,
                pendingMigs := s.pendingMigs ++ [(lv, t)] },
       [SCall.migrate lv t] ++ perf)
    | none =>
      match findMWInactive s (vGet s lv).cpu s.machines with
      | some t =>
        ({ s with activeMachines := setInsert s.activeMachines t,
                  machineUtilization := upsert s.machineUtilization t 0,
                  pendingState := s.pendingState ++ [(t, MachineSState.S0)],
                  migratingVMs := setInsert s.migratingVMs lv,
                  pendingMigs := s.pendingMigs ++ [(lv, t)] },
         [SCall.setState t MachineSState.S0, SCall.migrate lv t] ++ perf)
      | none =>
        match (vmsOnMachine s mid).find? (fun v => !(vGet s v).active_tasks.isEmpty) with
        | some v =>
          (removeTaskEff s v, [SCall.removeTask v ((vGet s v).active_tasks.getLastD 0)] ++ perf)
        | none => (s, perf)

/-- The scheduler state at entry of Scheduler::Init, given the machine
inventory the substrate reports. -/
def bootState (mis : List MachineInfo) : SysState :=
  { machineInfo := mis, vmInfo := [], pendingState := [], pendingMigs := [],
    machines := List.range mis.length, vms := [], activeMachines := [],
    migratingVMs := [], machineUtilization := [], migrating := false }

/-- Machines of a given CPU type in ascending id order, as the
`machinesByCPU` map of Scheduler::Init collects them (Scheduler.cpp:645-663). -/
def machinesOfCpu (s : SysState) (c : CPUType) : List Nat :=
  (List.range s.machineInfo.length).filter fun m => decide ((mGet s m).cpu = c)

/-- Iteration order of the `std::map<CPUType_t, ...>` of Scheduler::Init;
the substrate's enum order is not part of src, and no settled claim
depends on it. -/
def cpuOrder : List CPUType := [CPUType.ARM, CPUType.POWER, CPUType.RISCV, CPUType.X86]

/-- One VM creation of Scheduler::Init (Scheduler.cpp:690-708): a LINUX
VM of the given CPU type, attached to machine `m`, which becomes active. -/
def initCreateVM (cpu : CPUType) (m : Nat) (acc : SysState × List SCall) :
    SysState × List SCall :=
  let nid := acc.fst.vmInfo.length
  let s1 := { acc.fst with vmInfo := acc.fst.vmInfo ++
    [{ vm_type := VMType.LINUX, cpu := cpu, machine_id := none, active_tasks := [] }] }
  let s2 := attachVM s1 nid m
  ({ s2 with vms := s2.vms ++ [nid],
             activeMachines := setInsert s2.activeMachines m,
             machineUtilization := upsert s2.machineUtilization m 0 },
   acc.snd ++ [SCall.vmCreate VMType.LINUX cpu nid, SCall.vmAttach nid m])

/-- Scheduler::Init (Scheduler.cpp:630-749): for each CPU type create
`min(count, 4)` VMs round-robin over that type's machines (activating the
hosts); the fallback block (Scheduler.cpp:712-732) only runs when no VM
was created, which requires an empty machine inventory, and then its loop
body never executes; finally every machine left inactive is sent to S5. -/
def init (mis : List MachineInfo) : SysState × List SCall :=
  let r1 := cpuOrder.foldl
    (fun acc cpu =>
      let ms := machinesOfCpu acc.fst cpu
      if ms.isEmpty then acc
      else
        (List.range (min ms.length 4)).foldl
          (fun acc2 i => initCreateVM cpu (ms.getD (i % ms.length) 0) acc2) acc)
    (bootState mis, [])
  let r2 := r1.fst.machines.foldl
    (fun acc m =>
      if m ∈ acc.fst.activeMachines then acc
      else
        ({ acc.fst with pendingState := acc.fst.pendingState ++ [(m, MachineSState.S5)] },
         acc.snd ++ [SCall.setState m MachineSState.S5]))
    (r1.fst, r1.snd)
  r2

/-! Spec-side comparison definitions.  These follow the words of the
specification (spec.md §4.3 step 6, §4.4, §8), not the source; they exist
only to be compared against the behaviour of the embedded code. -/

/-- The specification's four-tier per-load DVFS decision (spec.md §4.4):
`load > 0.7 → P0; > 0.3 → P1; > 0.1 → P2; else P3`. -/
def specDVFS (load : ℚ) : CorePerf :=
  if 7 / 10 < load then CorePerf.P0
  else if 3 / 10 < load then CorePerf.P1
  else if 1 / 10 < load then CorePerf.P2
  else CorePerf.P3

/-- The specification's urgency (spec.md §4.3 step 1):
`remainingInstructions / max(1, targetCompletion - now)`. -/
def specUrgency (remaining target now : Nat) : ℚ :=
  (remaining : ℚ) / ((max 1 (target - now) : Nat) : ℚ)

/-- The specification's priority ladder (spec.md §4.3 step 6):
SLA0 → HIGH; SLA1 or urgency > 0.7 → HIGH; SLA2 or urgency > 0.4 → MID;
else LOW. -/
def specPriority (sla : SLAType) (u : ℚ) : Priority :=
  if sla = SLAType.SLA0 then Priority.HIGH_PRIORITY
  else if sla = SLAType.SLA1 ∨ 7 / 10 < u then Priority.HIGH_PRIORITY
  else if sla = SLAType.SLA2 ∨ 4 / 10 < u then Priority.MID_PRIORITY
  else Priority.LOW_PRIORITY

/-! Trace predicates. -/

/-- True when a call is not a request to power a machine down to S5. -/
def isNotS5 : SCall → Bool
  | SCall.setState _ MachineSState.S5 => false
  | _ => true

/-- A trace contains no S5 power-down request. -/
def noS5 (tr : List SCall) : Bool := tr.all isNotS5

/-- True when a call is not a `VM_Migrate`. -/
def isNotMigrate : SCall → Bool
  | SCall.migrate _ _ => false
  | _ => true

/-- A trace contains no `VM_Migrate` call. -/
def noMigrate (tr : List SCall) : Bool := tr.all isNotMigrate

/-- Whether the scheduler state records the task on some VM. -/
def taskHeld (s : SysState) (tid : Nat) : Bool :=
  s.vms.any fun v => (vGet s v).active_tasks.contains tid

/-- Whether a successor state's utilization map holds, for every machine
of the scheduler's list, exactly the utilization recomputed from the
predecessor state's machine information. -/
def utilOk (s s' : SysState) : Bool :=
  s.machines.all fun m => decide (utilGet s' m = utilOf s m)

/-! Concrete fixtures used by the counterexample and witness theorems. -/

/-- A generic idle X86 machine. -/
def mX86 : MachineInfo :=
  { cpu := CPUType.X86, num_cpus := 4, memory_size := 16384, memory_used := 0,
    gpus := false, s_state := MachineSState.S0, active_tasks := 0, active_vms := 0 }

/-- One active X86 machine hosting one empty X86 VM. -/
def sC1 : SysState :=
  { machineInfo := [{ mX86 with active_vms := 1 }],
    vmInfo := [{ vm_type := VMType.LINUX, cpu := CPUType.X86, machine_id := some 0,
                 active_tasks := [] }],
    pendingState := [], pendingMigs := [], machines := [0], vms := [0],
    activeMachines := [0], migratingVMs := [], machineUtilization := [], migrating := false }

/-- A task requiring an ARM CPU, which no machine of `sC1` offers. -/
def envC1 : Nat → TaskInfo := fun _ =>
  { required_cpu := CPUType.ARM, required_vm := VMType.LINUX, required_memory := 1,
    gpu_capable := false, required_sla := SLAType.SLA2,
    remaining_instructions := 1000, target_completion := 100 }

/-- One active X86 machine with full memory and no GPUs, and no VMs. -/
def sC2 : SysState :=
  { machineInfo := [{ mX86 with num_cpus := 2, memory_size := 4, memory_used := 4 }],
    vmInfo := [], pendingState := [], pendingMigs := [], machines := [0], vms := [],
    activeMachines := [0], migratingVMs := [], machineUtilization := [], migrating := false }

/-- A GPU-capable SLA0 task needing more memory than machine 0 has free. -/
def envC2 : Nat → TaskInfo := fun _ =>
  { required_cpu := CPUType.X86, required_vm := VMType.LINUX, required_memory := 8,
    gpu_capable := true, required_sla := SLAType.SLA0,
    remaining_instructions := 1000, target_completion := 100 }

/-- An active X86 machine and a powered-off (S5) ARM machine; no VMs. -/
def sC3 : SysState :=
  { machineInfo := [mX86,
      { mX86 with cpu := CPUType.ARM, num_cpus := 2, s_state := MachineSState.S5 }],
    vmInfo := [], pendingState := [], pendingMigs := [], machines := [0, 1], vms := [],
    activeMachines := [0], migratingVMs := [], machineUtilization := [], migrating := false }

/-- An SLA2 task requiring the ARM CPU only the S5 machine offers. -/
def envC3 : Nat → TaskInfo := fun _ =>
  { required_cpu := CPUType.ARM, required_vm := VMType.LINUX, required_memory := 1,
    gpu_capable := false, required_sla := SLAType.SLA2,
    remaining_instructions := 1000, target_completion := 100 }

/-- VM 0, with three tasks on machine 0, already has an outstanding
migration to machine 1 (it is in the migrating set and in
`pendingMigs`); machine 1 is active, CPU-compatible and idle. -/
def sC4 : SysState :=
  { machineInfo := [{ mX86 with active_tasks := 3, active_vms := 1 }, mX86],
    vmInfo := [{ vm_type := VMType.LINUX, cpu := CPUType.X86, machine_id := some 0,
                 active_tasks := [10, 11, 12] }],
    pendingState := [], pendingMigs := [(0, 1)], machines := [0, 1], vms := [0],
    activeMachines := [0, 1], migratingVMs := [0], machineUtilization := [],
    migrating := false }

/-- A machine with 10 cores and a single active task: load 1/10. -/
def sC5 : SysState :=
  { machineInfo := [{ mX86 with num_cpus := 10, active_tasks := 1, active_vms := 1 }],
    vmInfo := [{ vm_type := VMType.LINUX, cpu := CPUType.X86, machine_id := some 0,
                 active_tasks := [3] }],
    pendingState := [], pendingMigs := [], machines := [0], vms := [0],
    activeMachines := [0], migratingVMs := [], machineUtilization := [], migrating := false }

/-- A cluster of 16 identical X86 machines, as Init receives it. -/
def mis16 : List MachineInfo := List.replicate 16 mX86

/-- One active X86 machine hosting one empty X86 VM (for the priority
counterexample). -/
def sC7 : SysState :=
  { machineInfo := [{ mX86 with active_vms := 1 }],
    vmInfo := [{ vm_type := VMType.LINUX, cpu := CPUType.X86, machine_id := some 0,
                 active_tasks := [] }],
    pendingState := [], pendingMigs := [], machines := [0], vms := [0],
    activeMachines := [0], migratingVMs := [], machineUtilization := [], migrating := false }

/-- An SLA3 task 9/10 of whose instructions remain with the deadline 10
time units away: spec urgency 9/10 > 0.7. -/
def envC7 : Nat → TaskInfo := fun _ =>
  { required_cpu := CPUType.X86, required_vm := VMType.LINUX, required_memory := 1,
    gpu_capable := false, required_sla := SLAType.SLA3,
    remaining_instructions := 9, target_completion := 10 }

/-- Two X86 VMs on one machine: VM 0 has two tasks, VM 1 has one. -/
def s9 : SysState :=
  { machineInfo := [{ mX86 with active_tasks := 3, active_vms := 2 }],
    vmInfo := [{ vm_type := VMType.LINUX, cpu := CPUType.X86, machine_id := some 0,
                 active_tasks := [1, 2] },
               { vm_type := VMType.LINUX, cpu := CPUType.X86, machine_id := some 0,
                 active_tasks := [3] }],
    pendingState := [], pendingMigs := [], machines := [0], vms := [0, 1],
    activeMachines := [0], migratingVMs := [], machineUtilization := [], migrating := false }

/-- An SLA0 task requiring X86. -/
def env9 : Nat → TaskInfo := fun _ =>
  { required_cpu := CPUType.X86, required_vm := VMType.LINUX, required_memory := 1,
    gpu_capable := false, required_sla := SLAType.SLA0,
    remaining_instructions := 1000, target_completion := 100 }

/-- State with the global `migrating` flag set. -/
def sMig : SysState := { sC4 with migrating := true }

/-- A two-core X86 machine freshly arrived in S0, with no VM yet. -/
def sC8 : SysState :=
  { machineInfo := [{ mX86 with num_cpus := 2 }],
    vmInfo := [], pendingState := [], pendingMigs := [], machines := [0], vms := [],
    activeMachines := [], migratingVMs := [], machineUtilization := [], migrating := false }

/-! Helper lemmas about the list utilities. -/

theorem mem_setInsert {l : List Nat} {a b : Nat} : b ∈ setInsert l a ↔ b = a ∨ b ∈ l := by
  induction l with
  | nil => simp [setInsert]
  | cons x l ih =>
    simp only [setInsert]
    by_cases h1 : a < x
    · rw [if_pos h1]
      simp [List.mem_cons]
    · rw [if_neg h1]
      by_cases h2 : a = x
      · rw [if_pos h2]
        subst h2
        simp only [List.mem_cons]
        tauto
      · rw [if_neg h2]
        simp only [List.mem_cons, ih]
        tauto

theorem alookup_upsert (u : List (Nat × ℚ)) (k j : Nat) (v : ℚ) :
    alookup (upsert u k v) j = if j = k then some v else alookup u j := by
  induction u with
  | nil =>
    show (if k = j then some v else none) = if j = k then some v else none
    by_cases h : k = j
    · rw [if_pos h, if_pos h.symm]
    · rw [if_neg h, if_neg (fun h' => h h'.symm)]
  | cons a u ih =>
    obtain ⟨x, y⟩ := a
    simp only [upsert]
    by_cases hx : x = k
    · rw [if_pos hx]
      subst hx
      show (if x = j then some v else alookup u j) =
        if j = x then some v else (if x = j then some y else alookup u j)
      by_cases hj : x = j
      · rw [if_pos hj, if_pos hj.symm]
      · rw [if_neg hj, if_neg (fun h' => hj h'.symm), if_neg hj]
    · rw [if_neg hx]
      show (if x = j then some y else alookup (upsert u k v) j) =
        if j = k then some v else (if x = j then some y else alookup u j)
      by_cases hxj : x = j
      · rw [if_pos hxj, if_pos hxj]
        subst hxj
        rw [if_neg (fun h' : x = k => hx h')]
      · rw [if_neg hxj, if_neg hxj, ih]

theorem alookup_foldl_upsert (f : Nat → ℚ) :
    ∀ (l : List Nat) (u : List (Nat × ℚ)) (j : Nat),
      alookup (l.foldl (fun u m => upsert u m (f m)) u) j =
        if j ∈ l then some (f j) else alookup u j := by
  intro l
  induction l with
  | nil => intro u j; simp
  | cons a l ih =>
    intro u j
    simp only [List.foldl_cons, ih, alookup_upsert]
    by_cases hj : j ∈ l
    · simp [hj]
    · by_cases hja : j = a <;> simp [hj, hja]

theorem updNth_append_len {α : Type} (l : List α) (a : α) (f : α → α) :
    updNth (l ++ [a]) l.length f = l ++ [f a] := by
  induction l with
  | nil => rfl
  | cons x l ih => simp [updNth, ih]

theorem getD_append_len {α : Type} (l : List α) (a : α) (d : α) :
    (l ++ [a]).getD l.length d = a := by
  induction l with
  | nil => rfl
  | cons x l ih => simpa [List.getD] using ih

/-! Specifications of the scanning loops of NewTask. -/

theorem selFirst_spec (s : SysState) (cpu : CPUType) :
    ∀ (l : List Nat) (v : Nat), selFirst s cpu l = some v →
      (∃ p q, l = p ++ v :: q ∧
        (∀ w ∈ p, w ∈ s.migratingVMs ∨ (vGet s w).cpu ≠ cpu)) ∧
      v ∉ s.migratingVMs ∧ (vGet s v).cpu = cpu := by
  intro l
  induction l with
  | nil => intro v h; simp [selFirst] at h
  | cons a rest ih =>
    intro v h
    simp only [selFirst] at h
    by_cases hm : a ∈ s.migratingVMs
    · rw [if_pos hm] at h
      obtain ⟨⟨p, q, hpq, hall⟩, hv⟩ := ih v h
      refine ⟨⟨a :: p, q, by rw [hpq]; rfl, ?_⟩, hv⟩
      intro w hw
      rcases List.mem_cons.mp hw with hw | hw
      · exact Or.inl (hw ▸ hm)
      · exact hall w hw
    · rw [if_neg hm] at h
      by_cases hc : (vGet s a).cpu = cpu
      · rw [if_pos hc] at h
        obtain rfl : a = v := Option.some.inj h
        exact ⟨⟨[], rest, rfl, by intro w hw; cases hw⟩, hm, hc⟩
      · rw [if_neg hc] at h
        obtain ⟨⟨p, q, hpq, hall⟩, hv⟩ := ih v h
        refine ⟨⟨a :: p, q, by rw [hpq]; rfl, ?_⟩, hv⟩
        intro w hw
        rcases List.mem_cons.mp hw with hw | hw
        · exact Or.inr (hw ▸ hc)
        · exact hall w hw

theorem selFirst_none_of (s : SysState) (cpu : CPUType) :
    ∀ (l : List Nat), (∀ w ∈ l, w ∉ s.migratingVMs → (vGet s w).cpu ≠ cpu) →
      selFirst s cpu l = none := by
  intro l
  induction l with
  | nil => intro _; rfl
  | cons a rest ih =>
    intro h
    simp only [selFirst]
    by_cases hm : a ∈ s.migratingVMs
    · rw [if_pos hm]
      exact ih fun w hw => h w (List.mem_cons_of_mem a hw)
    · rw [if_neg hm, if_neg (h a (List.mem_cons_self a rest) hm)]
      exact ih fun w hw => h w (List.mem_cons_of_mem a hw)

theorem selBest_acc_spec (s : SysState) (cpu : CPUType) :
    ∀ (l : List Nat) (b : Nat) (v : Nat), selBest s cpu l (some (b, taskCount s b)) = some v →
      (v = b ∨ (v ∈ l ∧ v ∉ s.migratingVMs ∧ (vGet s v).cpu = cpu)) ∧
      taskCount s v ≤ taskCount s b ∧
      (∀ w ∈ l, w ∉ s.migratingVMs → (vGet s w).cpu = cpu → taskCount s v ≤ taskCount s w) := by
  intro l
  induction l with
  | nil =>
    intro b v h
    simp only [selBest, Option.map_some] at h
    obtain rfl : b = v := Option.some.inj h
    exact ⟨Or.inl rfl, Nat.le_refl _, by intro w hw; cases hw⟩
  | cons a rest ih =>
    intro b v h
    simp only [selBest] at h
    by_cases hm : a ∈ s.migratingVMs
    · rw [if_pos hm] at h
      obtain ⟨hor, hle, hall⟩ := ih b v h
      refine ⟨?_, hle, ?_⟩
      · rcases hor with hor | ⟨h1, h2⟩
        · exact Or.inl hor
        · exact Or.inr ⟨List.mem_cons_of_mem a h1, h2⟩
      · intro w hw hwm hwc
        rcases List.mem_cons.mp hw with rfl | hw
        · exact absurd hm hwm
        · exact hall w hw hwm hwc
    · rw [if_neg hm] at h
      by_cases hc : (vGet s a).cpu = cpu
      · rw [if_pos hc] at h
        by_cases hlt : taskCount s a < taskCount s b
        · rw [if_pos hlt] at h
          obtain ⟨hor, hle, hall⟩ := ih a v h
          refine ⟨?_, Nat.le_trans hle (Nat.le_of_lt hlt), ?_⟩
          · rcases hor with rfl | ⟨h1, h2⟩
            · exact Or.inr ⟨List.mem_cons_self _ _, hm, hc⟩
            · exact Or.inr ⟨List.mem_cons_of_mem a h1, h2⟩
          · intro w hw hwm hwc
            rcases List.mem_cons.mp hw with rfl | hw
            · exact hle
            · exact hall w hw hwm hwc
        · rw [if_neg hlt] at h
          obtain ⟨hor, hle, hall⟩ := ih b v h
          refine ⟨?_, hle, ?_⟩
          · rcases hor with hor | ⟨h1, h2⟩
            · exact Or.inl hor
            · exact Or.inr ⟨List.mem_cons_of_mem a h1, h2⟩
          · intro w hw hwm hwc
            rcases List.mem_cons.mp hw with rfl | hw
            · exact Nat.le_trans hle (Nat.le_of_not_lt hlt)
            · exact hall w hw hwm hwc
      · rw [if_neg hc] at h
        obtain ⟨hor, hle, hall⟩ := ih b v h
        refine ⟨?_, hle, ?_⟩
        · rcases hor with hor | ⟨h1, h2⟩
          · exact Or.inl hor
          · exact Or.inr ⟨List.mem_cons_of_mem a h1, h2⟩
        · intro w hw hwm hwc
          rcases List.mem_cons.mp hw with rfl | hw
          · exact absurd hwc hc
          · exact hall w hw hwm hwc

theorem selBest_start_spec (s : SysState) (cpu : CPUType) :
    ∀ (l : List Nat) (v : Nat), selBest s cpu l none = some v →
      v ∈ l ∧ v ∉ s.migratingVMs ∧ (vGet s v).cpu = cpu ∧
      (∀ w ∈ l, w ∉ s.migratingVMs → (vGet s w).cpu = cpu → taskCount s v ≤ taskCount s w) := by
  intro l
  induction l with
  | nil => intro v h; simp [selBest] at h
  | cons a rest ih =>
    intro v h
    simp only [selBest] at h
    by_cases hm : a ∈ s.migratingVMs
    · rw [if_pos hm] at h
      obtain ⟨h1, h2, h3, hall⟩ := ih v h
      refine ⟨List.mem_cons_of_mem a h1, h2, h3, ?_⟩
      intro w hw hwm hwc
      rcases List.mem_cons.mp hw with rfl | hw
      · exact absurd hm hwm
      · exact hall w hw hwm hwc
    · rw [if_neg hm] at h
      by_cases hc : (vGet s a).cpu = cpu
      · rw [if_pos hc] at h
        obtain ⟨hor, hle, hall⟩ := selBest_acc_spec s cpu rest a v h
        refine ⟨?_, ?_, ?_, ?_⟩
        · rcases hor with rfl | ⟨h1, _⟩
          · exact List.mem_cons_self _ _
          · exact List.mem_cons_of_mem a h1
        · rcases hor with rfl | ⟨_, h2, _⟩
          · exact hm
          · exact h2
        · rcases hor with rfl | ⟨_, _, h3⟩
          · exact hc
          · exact h3
        · intro w hw hwm hwc
          rcases List.mem_cons.mp hw with rfl | hw
          · exact hle
          · exact hall w hw hwm hwc
      · rw [if_neg hc] at h
        obtain ⟨h1, h2, h3, hall⟩ := ih v h
        refine ⟨List.mem_cons_of_mem a h1, h2, h3, ?_⟩
        intro w hw hwm hwc
        rcases List.mem_cons.mp hw with rfl | hw
        · exact absurd hwc hc
        · exact hall w hw hwm hwc

theorem selBest_none_of (s : SysState) (cpu : CPUType) :
    ∀ (l : List Nat), (∀ w ∈ l, w ∉ s.migratingVMs → (vGet s w).cpu ≠ cpu) →
      selBest s cpu l none = none := by
  intro l
  induction l with
  | nil => intro _; rfl
  | cons a rest ih =>
    intro h
    simp only [selBest]
    by_cases hm : a ∈ s.migratingVMs
    · rw [if_pos hm]
      exact ih fun w hw => h w (List.mem_cons_of_mem a hw)
    · rw [if_neg hm, if_neg (h a (List.mem_cons_self a rest) hm)]
      exact ih fun w hw => h w (List.mem_cons_of_mem a hw)

theorem selectVM_not_migrating (s : SysState) (cpu : CPUType) (sla : SLAType) (v : Nat)
    (h : selectVM s cpu sla = some v) : v ∉ s.migratingVMs := by
  cases sla with
  | SLA0 => exact (selBest_start_spec s cpu s.vms v h).2.1
  | SLA1 => exact (selFirst_spec s cpu s.vms v h).2.1
  | SLA2 => exact (selFirst_spec s cpu s.vms v h).2.1
  | SLA3 => exact (selFirst_spec s cpu s.vms v h).2.1

theorem selectVM_none_of (s : SysState) (cpu : CPUType) (sla : SLAType)
    (h : ∀ w ∈ s.vms, w ∉ s.migratingVMs → (vGet s w).cpu ≠ cpu) :
    selectVM s cpu sla = none := by
  cases sla with
  | SLA0 => exact selBest_none_of s cpu s.vms h
  | SLA1 => exact selFirst_none_of s cpu s.vms h
  | SLA2 => exact selFirst_none_of s cpu s.vms h
  | SLA3 => exact selFirst_none_of s cpu s.vms h

theorem findFirstCpu_spec (s : SysState) (cpu : CPUType) :
    ∀ (l : List Nat) (m : Nat), findFirstCpu s cpu l = some m →
      m ∈ l ∧ (mGet s m).cpu = cpu := by
  intro l
  induction l with
  | nil => intro m h; simp [findFirstCpu] at h
  | cons a rest ih =>
    intro m h
    simp only [findFirstCpu] at h
    by_cases hc : (mGet s a).cpu = cpu
    · rw [if_pos hc] at h
      obtain rfl : a = m := Option.some.inj h
      exact ⟨List.mem_cons_self _ _, hc⟩
    · rw [if_neg hc] at h
      obtain ⟨h1, h2⟩ := ih m h
      exact ⟨List.mem_cons_of_mem a h1, h2⟩

theorem findFirstCpu_none_of (s : SysState) (cpu : CPUType) :
    ∀ (l : List Nat), (∀ m ∈ l, (mGet s m).cpu ≠ cpu) → findFirstCpu s cpu l = none := by
  intro l
  induction l with
  | nil => intro _; rfl
  | cons a rest ih =>
    intro h
    simp only [findFirstCpu]
    rw [if_neg (h a (List.mem_cons_self a rest))]
    exact ih fun m hm => h m (List.mem_cons_of_mem a hm)

theorem findInactiveCpu_spec (s : SysState) (cpu : CPUType) :
    ∀ (l : List Nat) (m : Nat), findInactiveCpu s cpu l = some m →
      m ∈ l ∧ m ∉ s.activeMachines ∧ (mGet s m).cpu = cpu := by
  intro l
  induction l with
  | nil => intro m h; simp [findInactiveCpu] at h
  | cons a rest ih =>
    intro m h
    simp only [findInactiveCpu] at h
    by_cases ha : a ∈ s.activeMachines
    · rw [if_pos ha] at h
      obtain ⟨h1, h2⟩ := ih m h
      exact ⟨List.mem_cons_of_mem a h1, h2⟩
    · rw [if_neg ha] at h
      by_cases hc : (mGet s a).cpu = cpu
      · rw [if_pos hc] at h
        obtain rfl : a = m := Option.some.inj h
        exact ⟨List.mem_cons_self _ _, ha, hc⟩
      · rw [if_neg hc] at h
        obtain ⟨h1, h2⟩ := ih m h
        exact ⟨List.mem_cons_of_mem a h1, h2⟩

theorem findInactiveCpu_none_of (s : SysState) (cpu : CPUType) :
    ∀ (l : List Nat), (∀ m ∈ l, m ∉ s.activeMachines → (mGet s m).cpu ≠ cpu) →
      findInactiveCpu s cpu l = none := by
  intro l
  induction l with
  | nil => intro _; rfl
  | cons a rest ih =>
    intro h
    simp only [findInactiveCpu]
    by_cases ha : a ∈ s.activeMachines
    · rw [if_pos ha]
      exact ih fun m hm => h m (List.mem_cons_of_mem a hm)
    · rw [if_neg ha, if_neg (h a (List.mem_cons_self a rest) ha)]
      exact ih fun m hm => h m (List.mem_cons_of_mem a hm)

/-! Trace-shape and frame lemmas for the handlers. -/

theorem addTaskEff_snd (s : SysState) (v tid : Nat) (p : Priority) :
    (addTaskEff s v tid p).snd = [SCall.addTask v tid p] := rfl

theorem placeNewVM_snd (s : SysState) (ti : TaskInfo) (tid m : Nat) (pre : List SCall) :
    (placeNewVM s ti tid m pre).snd =
      pre ++ [SCall.vmCreate ti.required_vm ti.required_cpu s.vmInfo.length,
              SCall.vmAttach s.vmInfo.length m] ++
        [SCall.addTask s.vmInfo.length tid (priorityOf ti.required_sla)] := rfl

theorem consolidate_fst_frame (now : Nat) (s : SysState) :
    (consolidate now s).fst.vms = s.vms ∧ (consolidate now s).fst.vmInfo = s.vmInfo ∧
    (consolidate now s).fst.activeMachines = s.activeMachines ∧
    (consolidate now s).fst.machineInfo = s.machineInfo ∧
    (consolidate now s).fst.machines = s.machines := by
  unfold consolidate
  cases h : consolidateChoice now s with
  | none => exact ⟨rfl, rfl, rfl, rfl, rfl⟩
  | some vt =>
    obtain ⟨v, t⟩ := vt
    exact ⟨rfl, rfl, rfl, rfl, rfl⟩

theorem consolidate_snd_shape (now : Nat) (s : SysState) :
    (consolidate now s).snd = [] ∨
    ∃ v t, (consolidate now s).snd = [SCall.migrate v t] := by
  unfold consolidate
  cases h : consolidateChoice now s with
  | none => exact Or.inl rfl
  | some vt =>
    obtain ⟨v, t⟩ := vt
    exact Or.inr ⟨v, t, rfl⟩

theorem periodicCheck_frame (now : Nat) (s : SysState) :
    (periodicCheck now s).fst.vms = s.vms ∧ (periodicCheck now s).fst.vmInfo = s.vmInfo ∧
    (periodicCheck now s).fst.activeMachines = s.activeMachines ∧
    (periodicCheck now s).fst.machineInfo = s.machineInfo ∧
    (periodicCheck now s).fst.machines = s.machines :=
  consolidate_fst_frame now (updateUtil s)

theorem periodicCheck_snd (now : Nat) (s : SysState) :
    (periodicCheck now s).snd =
      dvfsCalls (updateUtil s) ++ (consolidate now (updateUtil s)).snd := rfl

theorem dvfsCalls_updateUtil (s : SysState) : dvfsCalls (updateUtil s) = dvfsCalls s := rfl

theorem mem_dvfsCalls {s : SysState} {c : SCall} :
    c ∈ dvfsCalls s ↔ ∃ m, m ∈ s.machines ∧ ∃ i, i < (mGet s m).num_cpus ∧
      c = SCall.setCorePerf m i
        (if 0 < (mGet s m).active_tasks then CorePerf.P0 else CorePerf.P3) := by
  simp only [dvfsCalls, List.mem_flatMap, List.mem_map, List.mem_range]
  constructor
  · rintro ⟨m, hm, i, hi, rfl⟩
    exact ⟨m, hm, i, hi, rfl⟩
  · rintro ⟨m, hm, i, hi, rfl⟩
    exact ⟨m, hm, i, hi, rfl⟩

theorem noS5_append (a b : List SCall) : noS5 (a ++ b) = (noS5 a && noS5 b) :=
  List.all_append

theorem noMigrate_append (a b : List SCall) : noMigrate (a ++ b) = (noMigrate a && noMigrate b) :=
  List.all_append

theorem noS5_dvfs (s : SysState) : noS5 (dvfsCalls s) = true := by
  rw [noS5, List.all_eq_true]
  intro c hc
  rcases mem_dvfsCalls.mp hc with ⟨m, _, i, _, rfl⟩
  rfl

theorem noMigrate_dvfs (s : SysState) : noMigrate (dvfsCalls s) = true := by
  rw [noMigrate, List.all_eq_true]
  intro c hc
  rcases mem_dvfsCalls.mp hc with ⟨m, _, i, _, rfl⟩
  rfl

theorem noS5_perfMap (m n : Nat) (p : CorePerf) :
    noS5 ((List.range n).map fun i => SCall.setCorePerf m i p) = true := by
  rw [noS5, List.all_eq_true]
  intro c hc
  rcases List.mem_map.mp hc with ⟨i, _, rfl⟩
  rfl

theorem noS5_ensureVM (s : SysState) (m : Nat) (c : CPUType) :
    noS5 (ensureVM s m c).snd = true := by
  unfold ensureVM
  split <;> rfl

theorem noS5_periodicCheck (now : Nat) (s : SysState) :
    noS5 (periodicCheck now s).snd = true := by
  rw [periodicCheck_snd, noS5_append, dvfsCalls_updateUtil, noS5_dvfs, Bool.true_and]
  rcases consolidate_snd_shape now (updateUtil s) with h | ⟨v, t, h⟩ <;> rw [h] <;> rfl

theorem consolidateChoice_none_of_flag (now : Nat) (s : SysState) (h : s.migrating = true) :
    consolidateChoice now s = none := by
  unfold consolidateChoice
  rw [if_neg]
  rintro ⟨h1, _⟩
  rw [h] at h1
  exact Bool.noConfusion h1

theorem utilGet_updateUtil (s : SysState) (m : Nat) (hm : m ∈ s.machines) :
    utilGet (updateUtil s) m = utilOf s m := by
  show (alookup ((updateUtil s).machineUtilization) m).getD 0 = utilOf s m
  show (alookup (s.machines.foldl (fun u m => upsert u m (utilOf s m))
    s.machineUtilization) m).getD 0 = utilOf s m
  rw [alookup_foldl_upsert (utilOf s) s.machines s.machineUtilization m, if_pos hm]
  rfl

theorem ensureVM_active (s : SysState) (m : Nat) (c : CPUType) :
    (ensureVM s m c).fst.activeMachines = s.activeMachines := by
  unfold ensureVM
  split <;> rfl

theorem ensureVM_vms_sub (s : SysState) (m : Nat) (c : CPUType) :
    ∀ v ∈ s.vms, v ∈ (ensureVM s m c).fst.vms := by
  intro v hv
  unfold ensureVM
  split
  · exact hv
  · exact List.mem_append_left _ hv

theorem ensureVM_attached (s : SysState) (m : Nat) (c : CPUType) :
    ∃ v, v ∈ (ensureVM s m c).fst.vms ∧ (vGet (ensureVM s m c).fst v).machine_id = some m := by
  by_cases h : s.vms.any (fun vm => (vGet s vm).machine_id == some m)
  · refine ?_
    obtain ⟨v, hv, hbeq⟩ := List.any_eq_true.mp h
    refine ⟨v, ?_, ?_⟩
    · unfold ensureVM
      rw [if_pos h]
      exact hv
    · unfold ensureVM
      rw [if_pos h]
      exact eq_of_beq hbeq
  · refine ⟨s.vmInfo.length, ?_, ?_⟩
    · unfold ensureVM
      rw [if_neg h]
      exact List.mem_append_right _ (List.mem_singleton.mpr rfl)
    · unfold ensureVM
      rw [if_neg h]
      show ((updNth (s.vmInfo ++
        [({ vm_type := VMType.LINUX, cpu := c, machine_id := none, active_tasks := [] } : VMInfo)])
        s.vmInfo.length
        (fun vi => { vi with machine_id := some m })).getD s.vmInfo.length default).machine_id
        = some m
      rw [updNth_append_len, getD_append_len]


/-- Every `VM_AddTask` NewTask emits carries the SLA-only priority, and
its VM is either the selected existing VM or the freshly created one. -/
theorem newTask_addTask_mem (env : Nat → TaskInfo) (now tid : Nat) (s : SysState)
    (v : Nat) (p : Priority) (h : SCall.addTask v tid p ∈ (newTask env now tid s).snd) :
    p = priorityOf (env tid).required_sla ∧
    (selectVM s (env tid).required_cpu (env tid).required_sla = some v ∨
      v = s.vmInfo.length) := by
  rcases hsel : selectVM s (env tid).required_cpu (env tid).required_sla with _ | v'
  · rcases hf1 : findFirstCpu s (env tid).required_cpu s.activeMachines with _ | m1
    · rcases hf2 : findInactiveCpu s (env tid).required_cpu s.machines with _ | m2
      · simp [newTask, hsel, hf1, hf2] at h
      · simp [newTask, hsel, hf1, hf2, placeNewVM_snd] at h
        obtain ⟨h1, h2⟩ := h
        exact ⟨h2, Or.inr h1⟩
    · simp [newTask, hsel, hf1, placeNewVM_snd] at h
      obtain ⟨h1, h2⟩ := h
      exact ⟨h2, Or.inr h1⟩
  · simp [newTask, hsel, addTaskEff_snd] at h
    obtain ⟨h1, h2⟩ := h
    subst h1
    exact ⟨h2, Or.inl rfl⟩

/-- C1 counterexample: on a cluster whose only machine (and only VM) is
X86, an ARM-requiring task is dropped by NewTask: the handler leaves the
whole state unchanged, issues no substrate call, and the task is recorded
nowhere — there is no pending queue to receive it. -/
theorem newTask_unplaceable_dropped_cex :
    newTask envC1 0 42 sC1 = (sC1, []) ∧ taskHeld sC1 42 = false := by decide

/-- C1 (amended): when no non-migrating VM matches the task's CPU and no
machine (active or inactive) has the required CPU type, NewTask is a
complete no-op: the state is unchanged and no substrate call is issued,
so the task is dropped — not enqueued (the code keeps no pending queue) —
and no error escapes the handler (it is a total function). -/
theorem newTask_no_candidate_noop (env : Nat → TaskInfo) (now tid : Nat) (s : SysState)
    (h1 : ∀ w ∈ s.vms, w ∉ s.migratingVMs → (vGet s w).cpu ≠ (env tid).required_cpu)
    (h2 : ∀ m ∈ s.activeMachines, (mGet s m).cpu ≠ (env tid).required_cpu)
    (h3 : ∀ m ∈ s.machines, m ∉ s.activeMachines → (mGet s m).cpu ≠ (env tid).required_cpu) :
    newTask env now tid s = (s, []) := by
  simp [newTask, selectVM_none_of s (env tid).required_cpu (env tid).required_sla h1,
    findFirstCpu_none_of s (env tid).required_cpu s.activeMachines h2,
    findInactiveCpu_none_of s (env tid).required_cpu s.machines h3]

/-- C1 witness: the no-candidate no-op theorem applied to the concrete
ARM task on the all-X86 cluster. -/
theorem newTask_no_candidate_noop_witness : newTask envC1 0 42 sC1 = (sC1, []) :=
  newTask_no_candidate_noop envC1 0 42 sC1 (by decide) (by decide) (by decide)

/-- C2 counterexample: NewTask places a GPU-capable task needing 8 units
of memory onto machine 0, which has no GPUs and whose used memory (4)
already equals its size (4): none of the claimed memory/GPU conditions
are checked at placement. -/
theorem newTask_ignores_memory_gpu_cex :
    (newTask envC2 0 42 sC2).snd =
      [SCall.vmCreate VMType.LINUX CPUType.X86 0, SCall.vmAttach 0 0,
       SCall.addTask 0 42 Priority.HIGH_PRIORITY] ∧
    (mGet sC2 0).memory_size < (mGet sC2 0).memory_used + (envC2 42).required_memory ∧
    (envC2 42).gpu_capable = true ∧ (mGet sC2 0).gpus = false := by decide

/-- C2 (amended): the only property NewTask guarantees of the machine a
fresh VM is attached to is CPU equality with the task's required CPU; no
memory, GPU, power-state or pending-state condition is enforced. -/
theorem newTask_host_cpu_only (env : Nat → TaskInfo) (now tid : Nat) (s : SysState)
    (v m : Nat) (h : SCall.vmAttach v m ∈ (newTask env now tid s).snd) :
    (mGet s m).cpu = (env tid).required_cpu := by
  rcases hsel : selectVM s (env tid).required_cpu (env tid).required_sla with _ | v'
  · rcases hf1 : findFirstCpu s (env tid).required_cpu s.activeMachines with _ | m1
    · rcases hf2 : findInactiveCpu s (env tid).required_cpu s.machines with _ | m2
      · simp [newTask, hsel, hf1, hf2] at h
      · simp [newTask, hsel, hf1, hf2, placeNewVM_snd] at h
        obtain ⟨h1, h2⟩ := h
        subst h2
        exact (findInactiveCpu_spec s (env tid).required_cpu s.machines m hf2).2.2
    · simp [newTask, hsel, hf1, placeNewVM_snd] at h
      obtain ⟨h1, h2⟩ := h
      subst h2
      exact (findFirstCpu_spec s (env tid).required_cpu s.activeMachines m hf1).2
  · simp [newTask, hsel, addTaskEff_snd] at h

/-- C2 witness: the CPU-only host lemma applied to the concrete
over-memory GPU placement. -/
theorem newTask_host_cpu_only_witness : (mGet sC2 0).cpu = (envC2 42).required_cpu :=
  newTask_host_cpu_only envC2 0 42 sC2 0 0 (by decide)

/-- C3 counterexample: for an ARM task with only an S5 ARM machine
available, NewTask requests `Machine_SetState(1, S0)` and, in the same
handler run — before any `StateChangeComplete` can fire — attaches a
fresh VM to machine 1 and places the task on it; the request is still
pending when `VM_AddTask` is issued. -/
theorem newTask_pending_machine_cex :
    (newTask envC3 0 7 sC3).snd =
      [SCall.setState 1 MachineSState.S0, SCall.vmCreate VMType.LINUX CPUType.ARM 0,
       SCall.vmAttach 0 1, SCall.addTask 0 7 Priority.MID_PRIORITY] ∧
    (mGet sC3 1).s_state = MachineSState.S5 ∧
    (newTask envC3 0 7 sC3).fst.pendingState = [(1, MachineSState.S0)] := by decide

/-- C3 (amended): the VM receiving `VM_AddTask` in NewTask is never one
the scheduler marked migrating (existing candidates are filtered, and a
fresh VM's id is outside the migrating set whenever that set only holds
existing VM ids); no such guarantee holds for the hosting machine's
pending power state. -/
theorem newTask_addTask_vm_not_migrating (env : Nat → TaskInfo) (now tid : Nat)
    (s : SysState) (hwf : ∀ w ∈ s.migratingVMs, w < s.vmInfo.length) (v : Nat) (p : Priority)
    (h : SCall.addTask v tid p ∈ (newTask env now tid s).snd) :
    v ∉ s.migratingVMs := by
  rcases (newTask_addTask_mem env now tid s v p h).2 with hsel | rfl
  · exact selectVM_not_migrating s (env tid).required_cpu (env tid).required_sla v hsel
  · intro hm
    exact absurd (hwf _ hm) (Nat.lt_irrefl _)

/-- C3 witness: the non-migrating-VM lemma applied to the concrete
power-on placement of `sC3`. -/
theorem newTask_addTask_vm_not_migrating_witness : 0 ∉ sC3.migratingVMs :=
  newTask_addTask_vm_not_migrating envC3 0 7 sC3 (by decide) 0 Priority.MID_PRIORITY
    (by decide)

/-- C7 counterexample: an SLA3 task with spec urgency 9/10 (> 0.7, so the
claim demands HIGH) is handed to `VM_AddTask` with LOW priority: the code
never computes an urgency. -/
theorem newTask_priority_ignores_urgency_cex :
    (newTask envC7 0 5 sC7).snd = [SCall.addTask 0 5 Priority.LOW_PRIORITY] ∧
    specUrgency 9 10 0 = 9 / 10 ∧
    specPriority SLAType.SLA3 (9 / 10) = Priority.HIGH_PRIORITY ∧
    Priority.LOW_PRIORITY ≠ Priority.HIGH_PRIORITY := by
  refine ⟨by decide, ?_, ?_, by decide⟩
  · norm_num [specUrgency]
  · norm_num [specPriority]

/-- C7 (amended): the priority NewTask passes to `VM_AddTask` is a pure
function of the task's SLA class — SLA0 and SLA1 yield HIGH, SLA2 yields
MID, SLA3 yields LOW — with no urgency term. -/
theorem newTask_priority_sla_only (env : Nat → TaskInfo) (now tid : Nat) (s : SysState)
    (v : Nat) (p : Priority) (h : SCall.addTask v tid p ∈ (newTask env now tid s).snd) :
    p = priorityOf (env tid).required_sla :=
  (newTask_addTask_mem env now tid s v p h).1

/-- C7 witness: the SLA-only priority lemma applied to the concrete SLA3
placement. -/
theorem newTask_priority_sla_only_witness :
    Priority.LOW_PRIORITY = priorityOf (envC7 5).required_sla :=
  newTask_priority_sla_only envC7 0 5 sC7 0 Priority.LOW_PRIORITY (by decide)

/-- C9 (confirmed): when the VM-selection loop of NewTask finds a VM, the
task is assigned to exactly that VM with the SLA-derived priority; the
chosen VM is a non-migrating member of the scheduler's list with matching
CPU, for SLA0 it has the fewest active tasks among all such VMs, and for
any other SLA it is the first such VM in list order. -/
theorem newTask_assigns_selected_vm (env : Nat → TaskInfo) (now tid : Nat) (s : SysState)
    (v : Nat) (h : selectVM s (env tid).required_cpu (env tid).required_sla = some v) :
    (newTask env now tid s).snd = [SCall.addTask v tid (priorityOf (env tid).required_sla)] ∧
    v ∈ s.vms ∧ v ∉ s.migratingVMs ∧ (vGet s v).cpu = (env tid).required_cpu ∧
    ((env tid).required_sla = SLAType.SLA0 →
      ∀ w ∈ s.vms, w ∉ s.migratingVMs → (vGet s w).cpu = (env tid).required_cpu →
        taskCount s v ≤ taskCount s w) ∧
    ((env tid).required_sla ≠ SLAType.SLA0 →
      ∃ p q, s.vms = p ++ v :: q ∧
        ∀ w ∈ p, w ∈ s.migratingVMs ∨ (vGet s w).cpu ≠ (env tid).required_cpu) := by
  have hsnd : (newTask env now tid s).snd =
      [SCall.addTask v tid (priorityOf (env tid).required_sla)] := by
    simp [newTask, h, addTaskEff_snd]
  refine ⟨hsnd, ?_⟩
  cases hsla : (env tid).required_sla with
  | SLA0 =>
    simp only [hsla, selectVM] at h
    obtain ⟨hmem, hmig, hcpu, hmin⟩ := selBest_start_spec s (env tid).required_cpu s.vms v h
    exact ⟨hmem, hmig, hcpu, fun _ => hmin, fun hne => absurd rfl hne⟩
  | SLA1 =>
    simp only [hsla, selectVM] at h
    obtain ⟨⟨p, q, hpq, hpre⟩, hmig, hcpu⟩ := selFirst_spec s (env tid).required_cpu s.vms v h
    refine ⟨?_, hmig, hcpu, ?_, ?_⟩
    · rw [hpq]
      exact List.mem_append_right _ (List.mem_cons_self _ _)
    · intro habs
      exact absurd habs (by decide)
    · intro _
      exact ⟨p, q, hpq, hpre⟩
  | SLA2 =>
    simp only [hsla, selectVM] at h
    obtain ⟨⟨p, q, hpq, hpre⟩, hmig, hcpu⟩ := selFirst_spec s (env tid).required_cpu s.vms v h
    refine ⟨?_, hmig, hcpu, ?_, ?_⟩
    · rw [hpq]
      exact List.mem_append_right _ (List.mem_cons_self _ _)
    · intro habs
      exact absurd habs (by decide)
    · intro _
      exact ⟨p, q, hpq, hpre⟩
  | SLA3 =>
    simp only [hsla, selectVM] at h
    obtain ⟨⟨p, q, hpq, hpre⟩, hmig, hcpu⟩ := selFirst_spec s (env tid).required_cpu s.vms v h
    refine ⟨?_, hmig, hcpu, ?_, ?_⟩
    · rw [hpq]
      exact List.mem_append_right _ (List.mem_cons_self _ _)
    · intro habs
      exact absurd habs (by decide)
    · intro _
      exact ⟨p, q, hpq, hpre⟩

/-- C9 witness: for the concrete SLA0 task, NewTask picks VM 1 — the
matching VM with the fewest active tasks — and assigns with HIGH priority. -/
theorem newTask_assigns_selected_vm_witness :
    (newTask env9 0 9 s9).snd = [SCall.addTask 1 9 (priorityOf (env9 9).required_sla)] ∧
    1 ∈ s9.vms ∧ 1 ∉ s9.migratingVMs ∧ (vGet s9 1).cpu = (env9 9).required_cpu ∧
    ((env9 9).required_sla = SLAType.SLA0 →
      ∀ w ∈ s9.vms, w ∉ s9.migratingVMs → (vGet s9 w).cpu = (env9 9).required_cpu →
        taskCount s9 1 ≤ taskCount s9 w) ∧
    ((env9 9).required_sla ≠ SLAType.SLA0 →
      ∃ p q, s9.vms = p ++ 1 :: q ∧
        ∀ w ∈ p, w ∈ s9.migratingVMs ∨ (vGet s9 w).cpu ≠ (env9 9).required_cpu) :=
  newTask_assigns_selected_vm env9 0 9 s9 1 (by decide)

/-- C4 counterexample: VM 0 is already marked migrating (its migration to
machine 1 is outstanding), yet a MemoryWarning on its host selects it as
the most-loaded VM and issues a second `VM_Migrate` for it — the victim
scan never consults the migrating set. -/
theorem memoryWarning_remigrates_cex :
    0 ∈ sC4.migratingVMs ∧ SCall.migrate 0 1 ∈ (memoryWarning 0 0 sC4).snd := by decide

/-- C4 (amended): the consolidation step of PeriodicCheck does respect a
global one-migration-at-a-time guard: while the file-level `migrating`
flag is set, PeriodicCheck issues no `VM_Migrate` at all. -/
theorem periodicCheck_no_migrate_when_flagged (now : Nat) (s : SysState)
    (h : s.migrating = true) : noMigrate (periodicCheck now s).snd = true := by
  rw [periodicCheck_snd, noMigrate_append, dvfsCalls_updateUtil, noMigrate_dvfs,
    Bool.true_and]
  have hc : consolidateChoice now (updateUtil s) = none :=
    consolidateChoice_none_of_flag now (updateUtil s) h
  simp only [consolidate, hc]
  rfl

/-- C4 witness: with the flag set, the concrete PeriodicCheck run issues
no migration. -/
theorem periodicCheck_no_migrate_when_flagged_witness :
    noMigrate (periodicCheck 2000000 sMig).snd = true :=
  periodicCheck_no_migrate_when_flagged 2000000 sMig rfl

/-- C5 counterexample: machine 0 runs one task on ten cores, load 1/10,
for which the specification's four-tier rule dictates P3; PeriodicCheck
nevertheless sets its cores to P0, because the code only distinguishes
"has tasks" (P0) from "idle" (P3). -/
theorem periodicCheck_two_tier_cex :
    SCall.setCorePerf 0 0 CorePerf.P0 ∈ (periodicCheck 0 sC5).snd ∧
    utilOf sC5 0 = 1 / 10 ∧ specDVFS (1 / 10) = CorePerf.P3 ∧
    CorePerf.P0 ≠ CorePerf.P3 := by
  refine ⟨by decide, ?_, ?_, by decide⟩
  · norm_num [utilOf, mGet, sC5, mX86]
  · norm_num [specDVFS]

/-- C5 (amended): the `setCorePerf` calls PeriodicCheck emits are exactly
one per core of each machine of the scheduler's list, with state P0 when
the machine has at least one active task and P3 otherwise — a two-tier
function of load, not the specification's four tiers. -/
theorem periodicCheck_dvfs_two_tier (now : Nat) (s : SysState) (m i : Nat) (p : CorePerf) :
    (SCall.setCorePerf m i p ∈ (periodicCheck now s).snd →
      m ∈ s.machines ∧ i < (mGet s m).num_cpus ∧
      p = (if 0 < (mGet s m).active_tasks then CorePerf.P0 else CorePerf.P3)) ∧
    (m ∈ s.machines → i < (mGet s m).num_cpus →
      SCall.setCorePerf m i (if 0 < (mGet s m).active_tasks then CorePerf.P0 else CorePerf.P3)
        ∈ (periodicCheck now s).snd) := by
  constructor
  · intro h
    rw [periodicCheck_snd, dvfsCalls_updateUtil] at h
    rcases List.mem_append.mp h with h | h
    · rcases mem_dvfsCalls.mp h with ⟨m', hm', i', hi', heq⟩
      rw [SCall.setCorePerf.injEq] at heq
      obtain ⟨rfl, rfl, rfl⟩ := heq
      exact ⟨hm', hi', rfl⟩
    · rcases consolidate_snd_shape now (updateUtil s) with hc | ⟨v, t, hc⟩
      · rw [hc] at h
        cases h
      · rw [hc] at h
        exact absurd (List.mem_singleton.mp h) (by simp)
  · intro hm hi
    rw [periodicCheck_snd, dvfsCalls_updateUtil]
    exact List.mem_append_left _ (mem_dvfsCalls.mpr ⟨m, hm, i, hi, rfl⟩)

/-- C5 witness: the two-tier characterization applied to the concrete
loaded machine (one task, so P0 on core 0). -/
theorem periodicCheck_dvfs_two_tier_witness :
    SCall.setCorePerf 0 0
      (if 0 < (mGet sC5 0).active_tasks then CorePerf.P0 else CorePerf.P3)
      ∈ (periodicCheck 0 sC5).snd :=
  (periodicCheck_dvfs_two_tier 0 sC5 0 0 CorePerf.P0).2 (by decide) (by decide)

/-- C6 counterexample: Init on a 16-machine all-X86 cluster activates
only machines 0-3 (at most four VMs per CPU type) and requests S5 for the
other twelve, leaving 4 < 12 machines active — there is no
`INITIAL_ACTIVE_MACHINES` floor in the code. -/
theorem init_below_floor_cex :
    (init mis16).fst.activeMachines = [0, 1, 2, 3] ∧
    ((init mis16).snd.countP fun c => !(isNotS5 c)) = 12 ∧
    (init mis16).fst.activeMachines.length < 12 := by decide

/-- C6 (amended): after Init, the scheduler never requests a transition
to S5 again: none of the running event handlers (NewTask, PeriodicCheck,
TaskComplete, MemoryWarning, StateChangeComplete) ever emits
`Machine_SetState(_, S5)`, so the scheduler itself never lowers the
number of powered machines while running; the floor Init establishes is
simply the set of machines that received a VM, with no constant lower
bound. -/
theorem handlers_no_S5_request (env : Nat → TaskInfo) (now tid t mid : Nat) (s : SysState) :
    noS5 (newTask env now tid s).snd = true ∧
    noS5 (periodicCheck now s).snd = true ∧
    noS5 (taskComplete now tid s).snd = true ∧
    noS5 (memoryWarning now mid s).snd = true ∧
    noS5 (stateChangeComplete t mid s).snd = true := by
  refine ⟨?_, noS5_periodicCheck now s, rfl, ?_, ?_⟩
  · rcases hsel : selectVM s (env tid).required_cpu (env tid).required_sla with _ | v
    · rcases hf1 : findFirstCpu s (env tid).required_cpu s.activeMachines with _ | m1
      · rcases hf2 : findInactiveCpu s (env tid).required_cpu s.machines with _ | m2
        · simp only [newTask, hsel, hf1, hf2]
          rfl
        · simp only [newTask, hsel, hf1, hf2, placeNewVM_snd]
          rfl
      · simp only [newTask, hsel, hf1, placeNewVM_snd]
        rfl
    · simp only [newTask, hsel, addTaskEff_snd]
      rfl
  · cases hpl : pickLargest s (vmsOnMachine s mid) none 0 with
    | none =>
      simp only [memoryWarning, hpl]
      exact noS5_perfMap mid (mGet s mid).num_cpus CorePerf.P0
    | some lv =>
      cases hta : findMWTargetActive s mid (vGet s lv).cpu s.machines with
      | some t1 =>
        simp only [memoryWarning, hpl, hta]
        rw [noS5_append, noS5_perfMap]
        rfl
      | none =>
        cases hin : findMWInactive s (vGet s lv).cpu s.machines with
        | some t2 =>
          simp only [memoryWarning, hpl, hta, hin]
          rw [noS5_append, noS5_perfMap]
          rfl
        | none =>
          cases hfd : (vmsOnMachine s mid).find? (fun v => !(vGet s v).active_tasks.isEmpty) with
          | some v2 =>
            simp only [memoryWarning, hpl, hta, hin, hfd]
            rw [noS5_append, noS5_perfMap]
            rfl
          | none =>
            simp only [memoryWarning, hpl, hta, hin, hfd]
            exact noS5_perfMap mid (mGet s mid).num_cpus CorePerf.P0
  · cases hs : (mGet s mid).s_state with
    | S0 =>
      simp only [stateChangeComplete, hs]
      rw [noS5_append, noS5_append, noS5_perfMap, noS5_ensureVM, noS5_periodicCheck]
      rfl
    | S5 =>
      simp only [stateChangeComplete, hs]
      exact noS5_periodicCheck t (deactivateMachine s mid)
    | S1 =>
      simp only [stateChangeComplete, hs]
      exact noS5_periodicCheck t s
    | S2 =>
      simp only [stateChangeComplete, hs]
      exact noS5_periodicCheck t s
    | S3 =>
      simp only [stateChangeComplete, hs]
      exact noS5_periodicCheck t s
    | S4 =>
      simp only [stateChangeComplete, hs]
      exact noS5_periodicCheck t s

/-- C8 (confirmed): after StateChangeComplete for a machine the substrate
reports in S0, the machine is in the scheduler's active set and some VM
of the scheduler's list is attached to it (one is created when none was);
after the handler for a machine reported in S5, the machine is not in the
active set. -/
theorem stateChangeComplete_active_set_vm (t m : Nat) (s : SysState) :
    ((mGet s m).s_state = MachineSState.S0 →
      m ∈ (stateChangeComplete t m s).fst.activeMachines ∧
      ∃ v, v ∈ (stateChangeComplete t m s).fst.vms ∧
        (vGet (stateChangeComplete t m s).fst v).machine_id = some m) ∧
    ((mGet s m).s_state = MachineSState.S5 →
      m ∉ (stateChangeComplete t m s).fst.activeMachines) := by
  constructor
  · intro hs
    have hfst : (stateChangeComplete t m s).fst =
        (periodicCheck t (ensureVM (activateMachine s m) m (mGet s m).cpu).fst).fst := by
      simp only [stateChangeComplete, hs]
    have hframe :=
      periodicCheck_frame t (ensureVM (activateMachine s m) m (mGet s m).cpu).fst
    constructor
    · rw [hfst, hframe.2.2.1, ensureVM_active]
      exact mem_setInsert.mpr (Or.inl rfl)
    · obtain ⟨v, hv1, hv2⟩ := ensureVM_attached (activateMachine s m) m (mGet s m).cpu
      refine ⟨v, ?_, ?_⟩
      · rw [hfst, hframe.1]
        exact hv1
      · show ((stateChangeComplete t m s).fst.vmInfo.getD v default).machine_id = some m
        rw [hfst, hframe.2.1]
        exact hv2
  · intro hs
    have hfst : (stateChangeComplete t m s).fst =
        (periodicCheck t (deactivateMachine s m)).fst := by
      simp only [stateChangeComplete, hs]
    rw [hfst, (periodicCheck_frame t (deactivateMachine s m)).2.2.1]
    intro hmem
    have := (List.mem_filter.mp hmem).2
    simp at this

/-- C8 witness: completing the power-up of machine 0 of `sC8` activates
it and leaves a VM attached to it. -/
theorem stateChangeComplete_active_set_vm_witness :
    0 ∈ (stateChangeComplete 0 0 sC8).fst.activeMachines ∧
    ∃ v, v ∈ (stateChangeComplete 0 0 sC8).fst.vms ∧
      (vGet (stateChangeComplete 0 0 sC8).fst v).machine_id = some 0 :=
  (stateChangeComplete_active_set_vm 0 0 sC8).1 rfl

/-- C10 (confirmed): TaskComplete issues no substrate call and changes
nothing but the utilization map, which it recomputes for every machine of
the scheduler's list as activeTasks / numCpus (0 for a CPU-less machine). -/
theorem taskComplete_frame_util (now tid : Nat) (s : SysState) :
    (taskComplete now tid s).snd = [] ∧
    (taskComplete now tid s).fst.machineInfo = s.machineInfo ∧
    (taskComplete now tid s).fst.vmInfo = s.vmInfo ∧
    (taskComplete now tid s).fst.pendingState = s.pendingState ∧
    (taskComplete now tid s).fst.pendingMigs = s.pendingMigs ∧
    (taskComplete now tid s).fst.machines = s.machines ∧
    (taskComplete now tid s).fst.vms = s.vms ∧
    (taskComplete now tid s).fst.activeMachines = s.activeMachines ∧
    (taskComplete now tid s).fst.migratingVMs = s.migratingVMs ∧
    (taskComplete now tid s).fst.migrating = s.migrating ∧
    utilOk s (taskComplete now tid s).fst = true := by
  refine ⟨rfl, rfl, rfl, rfl, rfl, rfl, rfl, rfl, rfl, rfl, ?_⟩
  rw [utilOk, List.all_eq_true]
  intro m hm
  rw [decide_eq_true_eq]
  exact utilGet_updateUtil s m hm

end EEC
